import Mathlib

/-!
# Verification of the event-marketing wizard (`src/app.py`)

Shallow embedding of the Streamlit application `app.py`.  The application is
a rerun-driven wizard: on every rerun the script `create_event_page` executes
top to bottom over a per-session mutable dictionary (`st.session_state`), and
each transition block ends in `st.rerun()`.  We embed this as an explicit
state machine:

* `SessionState` mirrors the session-state keys set up by
  `init_session_state` (app.py lines 64-85) together with `user_inputs`
  (modelled as a flat record; the empty initial dict is modelled by a
  default record whose `.get`-style reads agree with Python's
  `dict.get(key, False)` defaults).
* `Provider` is the oracle for the external OpenAI calls: `none` models any
  provider exception caught by the `except` blocks, `some txt`/`some url` a
  successful response.
* `Call` records each outbound pipeline request, so theorems can count and
  inspect the calls a transition makes.
* `Event.render` performs the one automatic transition the script run for
  the current stage performs (each such block ends in `st.rerun()`, so one
  run performs at most one); the button events model a click, which in
  Streamlit makes the corresponding `st.button(...)` return true on the next
  run and executes exactly its handler before that handler's `st.rerun()`.
  A button event whose rendering guard does not hold (the button is not on
  screen) is a no-op.

Datetimes in `user_inputs` are kept as opaque pre-formatted strings: no
claim depends on `strftime` details, only on which fields flow where.
-/

namespace App

/-- The wizard stages stored in `st.session_state.stage`.  The source uses
string tags; `imageGenerations` stands for the literal `'Image Generations'`
(app.py line 324) and the others for the snake_case tags. -/
inductive Stage where
  | initial
  | generate_description
  | review_description
  | imageGenerations
  | review_images
  | generate_newsletter
  | review_newsletter
  | final
deriving DecidableEq, Repr

/-- The `user_inputs` dict captured on form submission (app.py lines 292-296).
Start/end times are opaque strings (already formatted). -/
structure UserInputs where
  title : String
  start_time : String
  end_time : String
  location : String
  facilitators : String
  short_desc : String
  gen_fb : Bool
  gen_ig : Bool
  gen_news : Bool
deriving DecidableEq, Repr

/-- Default `user_inputs`: models the empty dict `{}` from
`init_session_state`; Python code reads flags from it only via
`.get(key, False)` (app.py lines 442-446), which our default `false` fields
reproduce. -/
def UserInputs.empty : UserInputs :=
  { title := "", start_time := "", end_time := "", location := "",
    facilitators := "", short_desc := "",
    gen_fb := false, gen_ig := false, gen_news := false }

/-- The session state keys managed by `init_session_state`
(app.py lines 64-85). -/
structure SessionState where
  stage : Stage
  description_approved : Bool
  fb_image_approved : Bool
  ig_image_approved : Bool
  newsletter_approved : Bool
  generated_description : String
  fb_image_url : Option String
  ig_image_url : Option String
  newsletter_html : String
  user_inputs : UserInputs
deriving DecidableEq, Repr

/-- The function `init_session_state` (app.py lines 64-85): the fresh session state. -/
def init_session_state : SessionState :=
  { stage := .initial
    description_approved := false
    fb_image_approved := false
    ig_image_approved := false
    newsletter_approved := false
    generated_description := ""
    fb_image_url := none
    ig_image_url := none
    newsletter_html := ""
    user_inputs := UserInputs.empty }

/-- Oracle for the external OpenAI service on one script run: `none` models
a provider exception (caught by the `except` blocks), `some s` a successful
response payload. -/
structure Provider where
  descResult : Option String
  fbImageResult : Option String
  igImageResult : Option String
  newsResult : Option String
deriving DecidableEq, Repr

/-- One outbound request to the generation pipeline. -/
inductive Call where
  | descCall (title facilitators short_desc : String)
  | imageCall (title excerpt size agent_name : String)
  | newsCall (title description image_url : String)
deriving DecidableEq, Repr

/-- Fuel-based splitting of a character list at every occurrence of `sep`,
scanning left to right and consuming the separator, exactly as Python's
`str.split(sep)` for a non-empty separator.  The fuel is instantiated with
the list length, which bounds the number of recursive calls. -/
def pySplitAux (sep : List Char) : Nat → List Char → List (List Char)
  | _, [] => [[]]
  | 0, rest => [rest]
  | Nat.succ fuel, c :: cs =>
      if sep.isPrefixOf (c :: cs) then
        [] :: pySplitAux sep fuel ((c :: cs).drop sep.length)
      else
        match pySplitAux sep fuel cs with
        | [] => [[c]]
        | piece :: rest => (c :: piece) :: rest

/-- Python `s.split(sep)` (non-empty separator). -/
def pySplit (s sep : String) : List String :=
  (pySplitAux sep.data s.data.length s.data).map String.mk

/-- Python `pat in s` (substring containment). -/
def listContainsSub (pat : List Char) : List Char → Bool
  | [] => pat.isPrefixOf []
  | c :: cs => pat.isPrefixOf (c :: cs) || listContainsSub pat cs

/-- Python `s.replace(old, new)` for a non-empty `old`, scanning left to
right, fuel-based like `pySplitAux`. -/
def pyReplaceAux (old new : List Char) : Nat → List Char → List Char
  | _, [] => []
  | 0, rest => rest
  | Nat.succ fuel, c :: cs =>
      if old.isPrefixOf (c :: cs) then
        new ++ pyReplaceAux old new fuel ((c :: cs).drop old.length)
      else
        c :: pyReplaceAux old new fuel cs

/-- Python `s.replace(old, new)`. -/
def pyReplace (s old new : String) : String :=
  String.mk (pyReplaceAux old.data new.data s.data.length s.data)

/-- Python `s.strip()`: drops leading and trailing whitespace (whitespace
class modelled by `Char.isWhitespace`). -/
def pyStrip (s : String) : String :=
  String.mk
    (((s.data.dropWhile Char.isWhitespace).reverse.dropWhile
        Char.isWhitespace).reverse)

/-- Python `s[:n]` (the first `n` characters). -/
def pySlice (s : String) (n : Nat) : String :=
  String.mk (s.data.take n)

/-- Python truthiness of an optional string: `None` and `""` are falsy
(used by `if st.session_state.fb_image_url:` at app.py line 361 and by
`or` at line 408). -/
def truthy : Option String → Bool
  | some s => !(s == "")
  | none => false

/-- Python `a or b` on optional strings (app.py line 408:
`st.session_state.fb_image_url or st.session_state.ig_image_url`). -/
def pyOr (a b : Option String) : Option String :=
  if truthy a then a else b

/-- Embedding of `run_content_writer_agent` (app.py lines 90-134): one chat-completion
call; on success stores the generated text followed by the
facilitators/when/where footer into `generated_description`; any caught
exception leaves the state unchanged (only an error message is shown). -/
def run_content_writer_agent (st : SessionState) (u : UserInputs)
    (res : Option String) : SessionState × List Call :=
  let call := Call.descCall u.title u.facilitators u.short_desc
  match res with
  | some generated_text =>
      let formatted_description :=
        generated_text ++ "\n\n**Facilitators:** " ++ u.facilitators ++
        "\n\n**When:** " ++ u.start_time ++ " to " ++ u.end_time ++
        "\n\n**Where:** " ++ u.location
      ({ st with generated_description := formatted_description }, [call])
  | none => (st, [call])

/-- Embedding of `run_image_designer_agent` (app.py lines 137-162): one DALL-E call whose
prompt embeds `description[:500]`; returns the image URL on success and
`None` on any caught exception (the `openai.APIError` branch falls through
without a `return`, also yielding `None`). -/
def run_image_designer_agent (title description size agent_name : String)
    (res : Option String) : Option String × Call :=
  (res, Call.imageCall title (pySlice description 500) size agent_name)

/-- The post-processing of the newsletter composer's output
(app.py lines 192-194): if the response contains a ```html fence marker,
keep only the text between the first ```html and the following ```; then
Python `.strip()`, modelled by `String.trim`. -/
def cleanNewsletterHtml (html_content : String) : String :=
  let cleaned :=
    if listContainsSub "```html".data html_content.data then
      (pySplit ((pySplit html_content "```html").getD 1 "") "```").getD 0 ""
    else html_content
  pyStrip cleaned

/-- Embedding of `run_newsletter_composer_agent` (app.py lines 165-197): one
chat-completion call; on success stores the fence-stripped, trimmed HTML in
`newsletter_html`; any caught exception leaves the state unchanged. -/
def run_newsletter_composer_agent (st : SessionState)
    (title description image_url : String) (res : Option String) :
    SessionState × List Call :=
  let call := Call.newsCall title description image_url
  match res with
  | some html_content =>
      ({ st with newsletter_html := cleanNewsletterHtml html_content }, [call])
  | none => (st, [call])

/-- The gate `all_images_approved` (app.py lines 352-355). -/
def all_images_approved (s : SessionState) : Bool :=
  (!s.user_inputs.gen_fb || s.fb_image_approved) &&
  (!s.user_inputs.gen_ig || s.ig_image_approved)

/-- The manual fallback newsletter body (app.py line 417):
`f"<h1>{title}</h1><p>{description.replace('\n', '<br>')}</p>"`. -/
def manualNewsletterBody (title description : String) : String :=
  "<h1>" ++ title ++ "</h1><p>" ++ pyReplace description "\n" "<br>" ++ "</p>"

/-- The automatic description block (app.py lines 300-312): run the content
writer, then `stage = 'review_description'` and rerun. -/
def descGenStep (s : SessionState) (p : Provider) : SessionState × List Call :=
  let r := run_content_writer_agent s s.user_inputs p.descResult
  ({ r.1 with stage := .review_description }, r.2)

/-- The Facebook half of the image block (app.py lines 330-336): call the
designer only if facebook content is requested and not already approved,
storing the result (possibly `None`) in `fb_image_url`. -/
def fbImagePass (s : SessionState) (p : Provider) : SessionState × List Call :=
  if s.user_inputs.gen_fb && !s.fb_image_approved then
    let r := run_image_designer_agent s.user_inputs.title
      s.generated_description "1792x1024" "Facebook Designer" p.fbImageResult
    ({ s with fb_image_url := r.1 }, [r.2])
  else (s, [])

/-- The Instagram half of the image block (app.py lines 337-343). -/
def igImagePass (s : SessionState) (p : Provider) : SessionState × List Call :=
  if s.user_inputs.gen_ig && !s.ig_image_approved then
    let r := run_image_designer_agent s.user_inputs.title
      s.generated_description "1024x1024" "Instagram Designer" p.igImageResult
    ({ s with ig_image_url := r.1 }, [r.2])
  else (s, [])

/-- The automatic image block (app.py lines 328-345): guarded by
`description_approved`; runs the Facebook pass then the Instagram pass on
the updated state, then `stage = 'review_images'` and rerun. -/
def imageGenStep (s : SessionState) (p : Provider) : SessionState × List Call :=
  if s.description_approved then
    let r1 := fbImagePass s p
    let r2 := igImagePass r1.1 p
    ({ r2.1 with stage := .review_images }, r1.2 ++ r2.2)
  else (s, [])

/-- The automatic newsletter block (app.py lines 405-422): if the
newsletter is requested, pick `fb_image_url or ig_image_url` as the header;
with a truthy header run the composer, otherwise store the manual fallback
body; either way `stage = 'review_newsletter'`.  If the newsletter is not
requested, skip straight to `'final'`. -/
def newsletterGenStep (s : SessionState) (p : Provider) :
    SessionState × List Call :=
  if s.user_inputs.gen_news then
    let header_image := pyOr s.fb_image_url s.ig_image_url
    if truthy header_image then
      let r := run_newsletter_composer_agent s s.user_inputs.title
        s.generated_description (header_image.getD "") p.newsResult
      ({ r.1 with stage := .review_newsletter }, r.2)
    else
      ({ s with
          newsletter_html := manualNewsletterBody s.user_inputs.title
            s.generated_description
          stage := .review_newsletter }, [])
  else
    ({ s with stage := .final }, [])

/-- One script run with no button click: performs the automatic transition
block for the current stage, if any (app.py lines 300-312, 328-345,
400-402, 405-422).  Each such block ends in `st.rerun()`, so a single run
performs at most one of them. -/
def renderStep (s : SessionState) (p : Provider) : SessionState × List Call :=
  match s.stage with
  | .generate_description => descGenStep s p
  | .imageGenerations => imageGenStep s p
  | .review_images =>
      -- app.py lines 400-402 (inside the guard of line 347)
      if s.description_approved && all_images_approved s then
        ({ s with stage := .generate_newsletter }, [])
      else (s, [])
  | .generate_newsletter => newsletterGenStep s p
  | _ => (s, [])

/-- The stages at which the description review section renders
(app.py line 314). -/
def descReviewStages : List Stage :=
  [.review_description, .imageGenerations, .review_images,
   .generate_newsletter, .review_newsletter, .final]

/-- The stages at which the image review section renders
(app.py line 347). -/
def imageReviewStages : List Stage :=
  [.review_images, .generate_newsletter, .review_newsletter, .final]

/-- The stages at which the newsletter review section renders
(app.py line 425). -/
def newsReviewStages : List Stage :=
  [.review_newsletter, .final]

/-- Rendering guard of the Facebook image buttons (app.py lines 347, 352,
358, 361-363): image review section on screen, facebook content requested,
a truthy stored URL, and the image not yet approved. -/
def fbButtonsVisible (s : SessionState) : Bool :=
  imageReviewStages.contains s.stage && s.description_approved &&
  s.user_inputs.gen_fb && truthy s.fb_image_url && !s.fb_image_approved

/-- Rendering guard of the Instagram image buttons (app.py lines 347, 353,
379, 382-384). -/
def igButtonsVisible (s : SessionState) : Bool :=
  imageReviewStages.contains s.stage && s.description_approved &&
  s.user_inputs.gen_ig && truthy s.ig_image_url && !s.ig_image_approved

/-- User-visible interactions with the wizard.  `render` is a script run
with no click; each button event is a click on that button; the edit events
are the text areas persisting an edited value (app.py lines 317-319 and
432-433); `submit` is the form submission (app.py lines 284-298). -/
inductive Event where
  | render
  | submit (u : UserInputs)
  | approveDescription
  | regenerateFB
  | approveFB
  | approveFBWithout
  | regenerateIG
  | approveIG
  | approveIGWithout
  | approveNewsletter
  | editDescription (txt : String)
  | editNewsletter (txt : String)
deriving DecidableEq, Repr

/-- The transition function: one script run triggered by `e`, with provider
oracle `p`, returning the new session state and the pipeline calls made. -/
def applyEvent (s : SessionState) (e : Event) (p : Provider) :
    SessionState × List Call :=
  match e with
  | .render => renderStep s p
  | .submit u =>
      -- app.py lines 284-298: delete the stage/approval/draft keys,
      -- re-init them, store the fresh inputs, stage := 'generate_description'
      ({ stage := .generate_description
         description_approved := false
         fb_image_approved := false
         ig_image_approved := false
         newsletter_approved := false
         generated_description := ""
         fb_image_url := none
         ig_image_url := none
         newsletter_html := ""
         user_inputs := u }, [])
  | .approveDescription =>
      -- app.py lines 321-325
      if descReviewStages.contains s.stage && !s.description_approved then
        ({ s with description_approved := true, stage := .imageGenerations }, [])
      else (s, [])
  | .regenerateFB =>
      -- app.py lines 365-368
      if fbButtonsVisible s then
        ({ s with fb_image_url := none, stage := .imageGenerations }, [])
      else (s, [])
  | .approveFB =>
      -- app.py lines 369-371
      if fbButtonsVisible s then
        ({ s with fb_image_approved := true }, [])
      else (s, [])
  | .approveFBWithout =>
      -- app.py lines 372-375
      if fbButtonsVisible s then
        ({ s with fb_image_approved := true, fb_image_url := none }, [])
      else (s, [])
  | .regenerateIG =>
      -- app.py lines 386-389
      if igButtonsVisible s then
        ({ s with ig_image_url := none, stage := .imageGenerations }, [])
      else (s, [])
  | .approveIG =>
      -- app.py lines 390-392
      if igButtonsVisible s then
        ({ s with ig_image_approved := true }, [])
      else (s, [])
  | .approveIGWithout =>
      -- app.py lines 393-396
      if igButtonsVisible s then
        ({ s with ig_image_approved := true, ig_image_url := none }, [])
      else (s, [])
  | .approveNewsletter =>
      -- app.py lines 435-439
      if newsReviewStages.contains s.stage && s.user_inputs.gen_news &&
          !s.newsletter_approved then
        ({ s with newsletter_approved := true, stage := .final }, [])
      else (s, [])
  | .editDescription txt =>
      -- app.py lines 317-319
      if descReviewStages.contains s.stage then
        ({ s with generated_description := txt }, [])
      else (s, [])
  | .editNewsletter txt =>
      -- app.py lines 432-433
      if newsReviewStages.contains s.stage && s.user_inputs.gen_news then
        ({ s with newsletter_html := txt }, [])
      else (s, [])

/-- States reachable from the fresh session by any sequence of events and
provider responses. -/
inductive Reachable : SessionState → Prop where
  | init : Reachable init_session_state
  | step (s : SessionState) (e : Event) (p : Provider) :
      Reachable s → Reachable (applyEvent s e p).1

/-- Runs a list of (event, provider-oracle) pairs from a state, accumulating
the pipeline calls in order. -/
def runTrace (s : SessionState) : List (Event × Provider) →
    SessionState × List Call
  | [] => (s, [])
  | (e, p) :: rest =>
      ((runTrace (applyEvent s e p).1 rest).1,
       (applyEvent s e p).2 ++ (runTrace (applyEvent s e p).1 rest).2)

/-- The final gate `all_approved` (app.py lines 442-446). -/
def all_approved (s : SessionState) : Bool :=
  s.description_approved &&
  (!s.user_inputs.gen_fb || s.fb_image_approved) &&
  (!s.user_inputs.gen_ig || s.ig_image_approved) &&
  (!s.user_inputs.gen_news || s.newsletter_approved)

/-- The per-stage invariant used to establish the `final` gate: by the time
the controller is composing or reviewing the newsletter, the description and
every requested image are approved; in `final`, the whole `all_approved`
gate (app.py lines 442-446) holds. -/
def stageInv (s : SessionState) : Bool :=
  match s.stage with
  | .generate_newsletter => s.description_approved && all_images_approved s
  | .review_newsletter => s.description_approved && all_images_approved s
  | .final => all_approved s
  | _ => true

/-- Invariant: whenever the controller is in stage `generate_description`,
the generated description is still the empty string (the stage is only ever
entered by a form submission, which resets it). -/
def descClean (s : SessionState) : Bool :=
  !(s.stage == .generate_description) || (s.generated_description == "")

/-- Configuration `DB_FILE` (app.py line 25): `os.getenv("DB_FILE", "events.db")`. -/
def DB_FILE (getenv : String → Option String) : String :=
  (getenv "DB_FILE").getD "events.db"

/-- The database file `initialize_database` connects to (app.py line 41):
the configured `DB_FILE`. -/
def initialize_database_file (getenv : String → Option String) : String :=
  DB_FILE getenv

/-- The database file `save_event_to_db` connects to (app.py line 205):
the literal `'events.db'`. -/
def save_event_to_db_file : String := "events.db"

/-- The database file `view_events_page` connects to (app.py line 476):
the literal `'events.db'`. -/
def view_events_page_file : String := "events.db"

/-- A provider oracle where every external call fails. -/
def failingProvider : Provider :=
  { descResult := none, fbImageResult := none, igImageResult := none,
    newsResult := none }

/-- The C5 scenario inputs: title Sunrise Yoga, facilitators Ana, all three
request flags false. -/
def sunriseYogaInputs : UserInputs :=
  { UserInputs.empty with title := "Sunrise Yoga", facilitators := "Ana" }

/-- A concrete trace that submits a run with no content flags, approves the
description and lets the controller skip to `final`. -/
def finalTrace : List (Event × Provider) :=
  [(.submit sunriseYogaInputs, failingProvider),
   (.render, failingProvider), (.approveDescription, failingProvider),
   (.render, failingProvider), (.render, failingProvider),
   (.render, failingProvider)]

/-- Inputs requesting both image classes and no newsletter. -/
def bothImagesInputs : UserInputs :=
  { UserInputs.empty with title := "T", gen_fb := true, gen_ig := true }

/-- A provider oracle for a first, successful generation pass. -/
def imageProviderA : Provider :=
  { descResult := some "D", fbImageResult := some "http://f1",
    igImageResult := some "http://i1", newsResult := none }

/-- A provider oracle for a second generation pass, returning fresh URLs. -/
def imageProviderB : Provider :=
  { descResult := none, fbImageResult := some "http://f2",
    igImageResult := some "http://i2", newsResult := none }

/-- The reachable `review_images` state after submitting `bothImagesInputs`
and one successful generation pass: both images stored, neither approved. -/
def reviewBothState : SessionState :=
  (runTrace init_session_state
    [(.submit bothImagesInputs, imageProviderA), (.render, imageProviderA),
     (.approveDescription, imageProviderA), (.render, imageProviderA)]).1

/-- State `reviewBothState` after the user approves the instagram image. -/
def reviewIGApprovedState : SessionState :=
  (applyEvent reviewBothState .approveIG imageProviderA).1

/-- A concrete image-generation state used to exercise the image pipeline. -/
def sampleImageState : SessionState :=
  { init_session_state with
      stage := .imageGenerations
      description_approved := true
      generated_description := "D"
      user_inputs :=
        { UserInputs.empty with title := "T", gen_fb := true, gen_ig := true } }

/-- A provider oracle where both image calls succeed. -/
def sampleImageProvider : Provider :=
  { descResult := none, fbImageResult := some "http://fb",
    igImageResult := some "http://ig", newsResult := none }

end App

namespace App

lemma isPrefixOf_append_self (l r : List Char) : l.isPrefixOf (l ++ r) = true :=
  List.isPrefixOf_iff_prefix.mpr (List.prefix_append l r)

lemma isPrefixOf_cons_of_ne {a c : Char} (as cs : List Char) (h : c ≠ a) :
    (a :: as).isPrefixOf (c :: cs) = false := by
  simp [List.isPrefixOf]
  intro h'
  exact absurd h'.symm h

lemma pySplitAux_ne_nil (sep : List Char) (fuel : Nat) (l : List Char) :
    pySplitAux sep fuel l ≠ [] := by
  cases fuel with
  | zero => cases l <;> simp [pySplitAux]
  | succ f =>
      cases l with
      | nil => simp [pySplitAux]
      | cons c cs =>
          simp only [pySplitAux]
          split
          · simp
          · split <;> simp

lemma pySplitAux_fuel_eq (s0 : Char) (srest : List Char) :
    ∀ (f1 f2 : Nat) (l : List Char), l.length ≤ f1 → l.length ≤ f2 →
      pySplitAux (s0 :: srest) f1 l = pySplitAux (s0 :: srest) f2 l := by
  intro f1
  induction f1 with
  | zero =>
      intro f2 l h1 h2
      have : l = [] := List.eq_nil_of_length_eq_zero (Nat.le_zero.mp h1)
      subst this
      cases f2 <;> simp [pySplitAux]
  | succ f1 ih =>
      intro f2 l h1 h2
      cases l with
      | nil => cases f2 <;> simp [pySplitAux]
      | cons c cs =>
          cases f2 with
          | zero => simp at h2
          | succ f2 =>
              simp only [pySplitAux]
              simp only [List.length_cons, Nat.succ_le_succ_iff] at h1 h2
              split
              · have hd : ((c :: cs).drop (s0 :: srest).length).length ≤ cs.length := by
                  simp [List.length_drop]
                rw [ih f2 _ (Nat.le_trans hd h1) (Nat.le_trans hd h2)]
              · rw [ih f2 cs h1 h2]

lemma pySplitAux_append_of_ne (s0 : Char) (srest : List Char) :
    ∀ (a b p : List Char) (r : List (List Char)),
      (∀ c ∈ a, c ≠ s0) →
      pySplitAux (s0 :: srest) b.length b = p :: r →
      pySplitAux (s0 :: srest) (a ++ b).length (a ++ b) = (a ++ p) :: r := by
  intro a
  induction a with
  | nil => intro b p r _ hb; simpa using hb
  | cons c a ih =>
      intro b p r ha hb
      simp only [List.cons_append, List.length_cons, pySplitAux]
      rw [isPrefixOf_cons_of_ne _ _ (ha c (List.mem_cons_self c a))]
      simp only [Bool.false_eq_true, if_false, List.append_eq]
      rw [ih b p r (fun x hx => ha x (List.mem_cons_of_mem c hx)) hb]

lemma pySplitAux_append_sep (s0 : Char) (srest rest : List Char) :
    pySplitAux (s0 :: srest) ((s0 :: srest) ++ rest).length ((s0 :: srest) ++ rest)
      = [] :: pySplitAux (s0 :: srest) rest.length rest := by
  have hcons : (s0 :: srest) ++ rest = s0 :: (srest ++ rest) := rfl
  rw [hcons]
  simp only [List.length_cons, pySplitAux]
  rw [show (s0 :: (srest ++ rest)) = (s0 :: srest) ++ rest from rfl,
    isPrefixOf_append_self]
  simp only [if_true]
  rw [show List.drop (srest.length + 1) (s0 :: srest ++ rest)
      = List.drop (s0 :: srest).length ((s0 :: srest) ++ rest) from rfl,
    List.drop_left]
  congr 1
  apply pySplitAux_fuel_eq
  · simp
  · exact Nat.le_refl _

lemma listContainsSub_append_self (p0 : Char) (prest rest : List Char) :
    listContainsSub (p0 :: prest) ((p0 :: prest) ++ rest) = true := by
  show listContainsSub (p0 :: prest) (p0 :: (prest ++ rest)) = true
  have h := isPrefixOf_append_self (p0 :: prest) rest
  simp [listContainsSub]

lemma pySplit_html_fence (inner : String)
    (h : ∀ c ∈ inner.data, c ≠ '`') :
    pySplit ("```html" ++ inner ++ "```") "```html"
      = ["", String.mk (inner.data ++ "```".data)] := by
  have hdata : ("```html" ++ inner ++ "```").data
      = "```html".data ++ (inner.data ++ "```".data) := by
    simp [String.data_append, List.append_assoc]
  unfold pySplit
  rw [hdata]
  rw [show "```html".data = '`' :: "``html".data from rfl]
  rw [pySplitAux_append_sep]
  rw [pySplitAux_append_of_ne '`' "``html".data inner.data "```".data
    "```".data [] h (by decide)]
  simp

lemma pySplit_closing_fence (inner : String)
    (h : ∀ c ∈ inner.data, c ≠ '`') :
    pySplit (String.mk (inner.data ++ "```".data)) "```"
      = [String.mk inner.data, ""] := by
  unfold pySplit
  rw [show (String.mk (inner.data ++ "```".data)).data
      = inner.data ++ "```".data from rfl]
  rw [show "```".data = '`' :: "``".data from rfl]
  rw [pySplitAux_append_of_ne '`' "``".data inner.data "```".data
    [] [[]] h (by decide)]
  simp

lemma cleanNewsletterHtml_wrapped (inner : String)
    (h : ∀ c ∈ inner.data, c ≠ '`') :
    cleanNewsletterHtml ("```html" ++ inner ++ "```") = pyStrip inner := by
  have hdata : ("```html" ++ inner ++ "```").data
      = "```html".data ++ (inner.data ++ "```".data) := by
    simp [String.data_append, List.append_assoc]
  have hcontains : listContainsSub "```html".data
      ("```html" ++ inner ++ "```").data = true := by
    rw [hdata, show "```html".data = '`' :: "``html".data from rfl]
    exact listContainsSub_append_self _ _ _
  unfold cleanNewsletterHtml
  rw [hcontains]
  simp only [if_true]
  rw [pySplit_html_fence inner h]
  simp only [List.getD_cons_succ, List.getD_cons_zero]
  rw [pySplit_closing_fence inner h]
  simp only [List.getD_cons_zero]

/-- C7: For every provider response to the newsletter-compose operation,
the stored newsletter body is the code-fence-stripped response: a response
wrapped in surrounding ```html ...``` fence markers (inner HTML free of
backticks) is stored as exactly the inner HTML (with surrounding whitespace
stripped, as `.strip()` does); and on a provider error the session state,
hence the newsletter HTML, is left unchanged. -/
theorem newsletter_compose_strips_fences (st : SessionState)
    (title description image_url inner : String)
    (h : ∀ c ∈ inner.data, c ≠ '`') :
    (∀ raw : String,
      run_newsletter_composer_agent st title description image_url (some raw)
        = ({ st with newsletter_html := cleanNewsletterHtml raw },
           [Call.newsCall title description image_url])) ∧
    run_newsletter_composer_agent st title description image_url
        (some ("```html" ++ inner ++ "```"))
      = ({ st with newsletter_html := pyStrip inner },
         [Call.newsCall title description image_url]) ∧
    run_newsletter_composer_agent st title description image_url none
      = (st, [Call.newsCall title description image_url]) := by
  refine ⟨fun raw => rfl, ?_, rfl⟩
  simp [run_newsletter_composer_agent, cleanNewsletterHtml_wrapped inner h]

/-- Witness for C7 at a concrete fenced response. -/
theorem newsletter_compose_strips_fences_witness :
    (∀ c ∈ ("\n<h1>Event</h1>\n" : String).data, c ≠ '`') ∧
    run_newsletter_composer_agent init_session_state "T" "D" "http://img"
        (some ("```html" ++ "\n<h1>Event</h1>\n" ++ "```"))
      = ({ init_session_state with newsletter_html := pyStrip "\n<h1>Event</h1>\n" },
         [Call.newsCall "T" "D" "http://img"]) :=
  ⟨by decide,
   (newsletter_compose_strips_fences init_session_state "T" "D" "http://img"
     "\n<h1>Event</h1>\n" (by decide)).2.1⟩

/-- C10: `save_event_to_db` and `view_events_page` connect to the literal
file `'events.db'` regardless of configuration, while `initialize_database`
connects to the configured `DB_FILE`; so whenever `DB_FILE` differs from
`'events.db'`, saving and browsing target a different database file than the
one that was initialized. -/
theorem save_and_view_use_literal_events_db (getenv : String → Option String)
    (h : DB_FILE getenv ≠ "events.db") :
    save_event_to_db_file = "events.db" ∧
    view_events_page_file = "events.db" ∧
    initialize_database_file getenv = DB_FILE getenv ∧
    save_event_to_db_file ≠ initialize_database_file getenv ∧
    view_events_page_file ≠ initialize_database_file getenv := by
  refine ⟨rfl, rfl, rfl, ?_, ?_⟩ <;>
    · intro hh
      exact h (by simpa [save_event_to_db_file, view_events_page_file,
        initialize_database_file] using hh.symm)

/-- Witness for C10 with `DB_FILE=marketing.db` in the environment. -/
theorem save_and_view_use_literal_events_db_witness :
    DB_FILE (fun k => if k = "DB_FILE" then some "marketing.db" else none)
      ≠ "events.db" ∧
    save_event_to_db_file
      ≠ initialize_database_file
          (fun k => if k = "DB_FILE" then some "marketing.db" else none) :=
  ⟨by decide,
   (save_and_view_use_literal_events_db
     (fun k => if k = "DB_FILE" then some "marketing.db" else none)
     (by decide)).2.2.2.1⟩

/-- C3: In stage `generate_newsletter` with the newsletter requested and
no truthy image reference stored (none approved for header use), the render
makes zero pipeline calls and stores exactly
`<h1>{title}</h1><p>{description with newlines replaced by <br>}</p>`. -/
theorem newsletter_manual_fallback (s : SessionState) (p : Provider)
    (hstage : s.stage = .generate_newsletter)
    (hnews : s.user_inputs.gen_news = true)
    (hfb : truthy s.fb_image_url = false)
    (hig : truthy s.ig_image_url = false) :
    applyEvent s .render p
      = ({ s with
            newsletter_html := "<h1>" ++ s.user_inputs.title ++ "</h1><p>"
              ++ pyReplace s.generated_description "\n" "<br>" ++ "</p>"
            stage := .review_newsletter }, []) := by
  simp [applyEvent, renderStep, hstage, newsletterGenStep, hnews, pyOr,
    hfb, hig, manualNewsletterBody]

/-- Witness for C3 at a concrete state with no stored images. -/
theorem newsletter_manual_fallback_witness :
    (let s0 : SessionState :=
      { init_session_state with
          stage := .generate_newsletter
          description_approved := true
          generated_description := "a\nb"
          user_inputs := { UserInputs.empty with title := "T", gen_news := true } }
     truthy s0.fb_image_url = false ∧ truthy s0.ig_image_url = false ∧
     applyEvent s0 .render
        { descResult := none, fbImageResult := none, igImageResult := none,
          newsResult := none }
      = ({ s0 with
            newsletter_html := "<h1>T</h1><p>" ++ pyReplace "a\nb" "\n" "<br>" ++ "</p>"
            stage := .review_newsletter }, [])) :=
  ⟨by decide, by decide,
   newsletter_manual_fallback _ _ rfl rfl (by decide) (by decide)⟩

/-- C9: When the newsletter block runs the pipeline, the header image is
`fb_image_url or ig_image_url`: a truthy facebook reference is always
chosen, and the instagram reference is used only when the facebook one is
absent (falsy). -/
theorem newsletter_header_prefers_facebook (s : SessionState) (p : Provider)
    (hstage : s.stage = .generate_newsletter)
    (hnews : s.user_inputs.gen_news = true) :
    (∀ f, s.fb_image_url = some f → f ≠ "" →
      (applyEvent s .render p).2
        = [Call.newsCall s.user_inputs.title s.generated_description f]) ∧
    (truthy s.fb_image_url = false →
      ∀ g, s.ig_image_url = some g → g ≠ "" →
      (applyEvent s .render p).2
        = [Call.newsCall s.user_inputs.title s.generated_description g]) := by
  constructor
  · intro f hf hne
    have htf : truthy (some f) = true := by simp [truthy, hne]
    simp [applyEvent, renderStep, hstage, newsletterGenStep, hnews, pyOr,
      hf, htf, run_newsletter_composer_agent]
    cases p.newsResult <;> simp [run_newsletter_composer_agent, htf]
  · intro hfb g hg hne
    have htg : truthy (some g) = true := by simp [truthy, hne]
    simp [applyEvent, renderStep, hstage, newsletterGenStep, hnews, pyOr,
      hfb, hg, htg, run_newsletter_composer_agent]
    cases p.newsResult <;> simp [run_newsletter_composer_agent, htg]

/-- Witness for C9: with both images stored, the facebook one is the header. -/
theorem newsletter_header_prefers_facebook_witness :
    (let s0 : SessionState :=
      { init_session_state with
          stage := .generate_newsletter
          description_approved := true
          generated_description := "D"
          fb_image_url := some "http://fb"
          ig_image_url := some "http://ig"
          user_inputs := { UserInputs.empty with title := "T", gen_news := true } }
     (applyEvent s0 .render
        { descResult := none, fbImageResult := none, igImageResult := none,
          newsResult := some "H" }).2
      = [Call.newsCall "T" "D" "http://fb"]) :=
  (newsletter_header_prefers_facebook _ _ rfl rfl).1 "http://fb" rfl (by decide)

lemma pySlice_length_le (d : String) (n : Nat) : (pySlice d n).length ≤ n := by
  show (d.data.take n).length ≤ n
  rw [List.length_take]
  exact Nat.min_le_left _ _

/-- C8: Every image-generation request the wizard ever makes is either
the facebook one with target size 1792x1024 or the instagram one with
1024x1024, and its excerpt is exactly the first 500 characters of the
current description (hence at most 500 characters); on a provider error the
designer returns an absent reference. -/
theorem image_requests_sizes_and_excerpt (s : SessionState) (e : Event)
    (p : Provider) :
    (∀ t ex sz an, Call.imageCall t ex sz an ∈ (applyEvent s e p).2 →
      (t = s.user_inputs.title ∧ ex = pySlice s.generated_description 500 ∧
       ex.length ≤ 500 ∧
       ((sz = "1792x1024" ∧ an = "Facebook Designer") ∨
        (sz = "1024x1024" ∧ an = "Instagram Designer")))) ∧
    (∀ t d sz an, (run_image_designer_agent t d sz an none).1 = none) := by
  constructor
  · intro t ex sz an hmem
    cases e with
    | render =>
        cases hs : s.stage with
        | generate_description =>
            cases hr : p.descResult <;>
              simp [applyEvent, renderStep, hs, descGenStep,
                run_content_writer_agent, hr] at hmem
        | imageGenerations =>
            by_cases hda : s.description_approved
            · by_cases hfb : (s.user_inputs.gen_fb && !s.fb_image_approved) = true
              · by_cases hig : (s.user_inputs.gen_ig && !s.ig_image_approved) = true
                · simp [applyEvent, renderStep, hs, imageGenStep, hda,
                    fbImagePass, igImagePass, hfb, hig,
                    run_image_designer_agent] at hmem
                  rcases hmem with ⟨ht, hex, hsz, han⟩ | ⟨ht, hex, hsz, han⟩ <;>
                    exact ⟨ht, hex, by rw [hex]; exact pySlice_length_le _ _,
                      by simp [hsz, han]⟩
                · simp [applyEvent, renderStep, hs, imageGenStep, hda,
                    fbImagePass, igImagePass, hfb, hig,
                    run_image_designer_agent] at hmem
                  rcases hmem with ⟨ht, hex, hsz, han⟩
                  exact ⟨ht, hex, by rw [hex]; exact pySlice_length_le _ _,
                    by simp [hsz, han]⟩
              · by_cases hig : (s.user_inputs.gen_ig && !s.ig_image_approved) = true
                · simp [applyEvent, renderStep, hs, imageGenStep, hda,
                    fbImagePass, igImagePass, hfb, hig,
                    run_image_designer_agent] at hmem
                  rcases hmem with ⟨ht, hex, hsz, han⟩
                  exact ⟨ht, hex, by rw [hex]; exact pySlice_length_le _ _,
                    by simp [hsz, han]⟩
                · simp [applyEvent, renderStep, hs, imageGenStep, hda,
                    fbImagePass, igImagePass, hfb, hig,
                    run_image_designer_agent] at hmem
            · simp [applyEvent, renderStep, hs, imageGenStep, hda] at hmem
        | review_images =>
            by_cases hc : (s.description_approved && all_images_approved s) = true <;>
              simp [applyEvent, renderStep, hs, hc] at hmem
        | generate_newsletter =>
            by_cases hn : s.user_inputs.gen_news = true
            · by_cases hh : truthy (pyOr s.fb_image_url s.ig_image_url) = true
              · cases hr : p.newsResult <;>
                  simp [applyEvent, renderStep, hs, newsletterGenStep, hn, hh,
                    run_newsletter_composer_agent, hr] at hmem
              · simp [applyEvent, renderStep, hs, newsletterGenStep, hn, hh] at hmem
            · simp [applyEvent, renderStep, hs, newsletterGenStep, hn] at hmem
        | initial => simp [applyEvent, renderStep, hs] at hmem
        | review_description => simp [applyEvent, renderStep, hs] at hmem
        | review_newsletter => simp [applyEvent, renderStep, hs] at hmem
        | final => simp [applyEvent, renderStep, hs] at hmem
    | submit u => simp [applyEvent] at hmem
    | approveDescription =>
        rw [applyEvent] at hmem; split at hmem <;> simp at hmem
    | regenerateFB =>
        rw [applyEvent] at hmem; split at hmem <;> simp at hmem
    | approveFB =>
        rw [applyEvent] at hmem; split at hmem <;> simp at hmem
    | approveFBWithout =>
        rw [applyEvent] at hmem; split at hmem <;> simp at hmem
    | regenerateIG =>
        rw [applyEvent] at hmem; split at hmem <;> simp at hmem
    | approveIG =>
        rw [applyEvent] at hmem; split at hmem <;> simp at hmem
    | approveIGWithout =>
        rw [applyEvent] at hmem; split at hmem <;> simp at hmem
    | approveNewsletter =>
        rw [applyEvent] at hmem; split at hmem <;> simp at hmem
    | editDescription txt =>
        rw [applyEvent] at hmem; split at hmem <;> simp at hmem
    | editNewsletter txt =>
        rw [applyEvent] at hmem; split at hmem <;> simp at hmem
  · intro t d sz an
    rfl

/-- Witness for C8: the facebook request of a concrete image run. -/
theorem image_requests_sizes_and_excerpt_witness :
    Call.imageCall "T" "D" "1792x1024" "Facebook Designer"
        ∈ (applyEvent sampleImageState .render sampleImageProvider).2 ∧
    ("T" = sampleImageState.user_inputs.title ∧
     "D" = pySlice sampleImageState.generated_description 500 ∧
     ("D" : String).length ≤ 500 ∧
     ((("1792x1024" : String) = "1792x1024" ∧
       ("Facebook Designer" : String) = "Facebook Designer") ∨
      (("1792x1024" : String) = "1024x1024" ∧
       ("Facebook Designer" : String) = "Instagram Designer"))) :=
  ⟨by decide,
   (image_requests_sizes_and_excerpt sampleImageState .render
       sampleImageProvider).1 "T" "D" "1792x1024" "Facebook Designer"
     (by decide)⟩

/-- C5: With all three request flags false, the run that submits the
form, renders once (the single description call), approves the description,
and renders three more times reaches stage `final` with the whole approval
gate satisfied, having made exactly one description call and no image or
newsletter calls; the only user actions on the path are the submission and
the description approval. -/
theorem no_content_flags_reaches_final (u : UserInputs) (p : Provider)
    (hfb : u.gen_fb = false) (hig : u.gen_ig = false)
    (hnews : u.gen_news = false) :
    (runTrace init_session_state
        [(.submit u, p), (.render, p), (.approveDescription, p),
         (.render, p), (.render, p), (.render, p)]).1.stage = .final ∧
    all_approved (runTrace init_session_state
        [(.submit u, p), (.render, p), (.approveDescription, p),
         (.render, p), (.render, p), (.render, p)]).1 = true ∧
    (runTrace init_session_state
        [(.submit u, p), (.render, p), (.approveDescription, p),
         (.render, p), (.render, p), (.render, p)]).2
      = [Call.descCall u.title u.facilitators u.short_desc] := by
  cases hd : p.descResult <;>
    simp [runTrace, applyEvent, renderStep, descGenStep,
      run_content_writer_agent, hd, descReviewStages, List.contains,
      imageGenStep, fbImagePass, igImagePass, hfb, hig,
      all_images_approved, newsletterGenStep, hnews, all_approved]

lemma renderStep_flags (s : SessionState) (p : Provider) :
    (renderStep s p).1.description_approved = s.description_approved ∧
    (renderStep s p).1.fb_image_approved = s.fb_image_approved ∧
    (renderStep s p).1.ig_image_approved = s.ig_image_approved ∧
    (renderStep s p).1.newsletter_approved = s.newsletter_approved ∧
    (renderStep s p).1.user_inputs = s.user_inputs := by
  cases hdr : p.descResult <;> cases hnr : p.newsResult <;>
    cases hs : s.stage <;>
      simp [renderStep, hs, descGenStep, imageGenStep, newsletterGenStep,
        fbImagePass, igImagePass, run_content_writer_agent,
        run_newsletter_composer_agent, run_image_designer_agent, hdr, hnr] <;>
      (repeat' split) <;> simp

lemma renderStep_stage (s : SessionState) (p : Provider) :
    (renderStep s p).1.stage = s.stage ∨
    (renderStep s p).1.stage = .review_description ∧
        s.stage = .generate_description ∨
    (renderStep s p).1.stage = .review_images ∧
        s.stage = .imageGenerations ∧ s.description_approved = true ∨
    (renderStep s p).1.stage = .generate_newsletter ∧ s.stage = .review_images ∧
        s.description_approved = true ∧ all_images_approved s = true ∨
    (renderStep s p).1.stage = .review_newsletter ∧
        s.stage = .generate_newsletter ∧ s.user_inputs.gen_news = true ∨
    (renderStep s p).1.stage = .final ∧ s.stage = .generate_newsletter ∧
        s.user_inputs.gen_news = false := by
  cases hdr : p.descResult <;> cases hnr : p.newsResult <;>
    cases hs : s.stage <;>
      simp [renderStep, hs, descGenStep, imageGenStep, newsletterGenStep,
        fbImagePass, igImagePass, run_content_writer_agent,
        run_newsletter_composer_agent, run_image_designer_agent, hdr, hnr] <;>
      (repeat' split) <;> simp_all

lemma stageInv_applyEvent (s : SessionState) (e : Event) (p : Provider)
    (h : stageInv s = true) : stageInv (applyEvent s e p).1 = true := by
  cases e with
  | render =>
      cases hs : s.stage with
      | generate_description =>
          cases hd : p.descResult <;>
            simp [applyEvent, renderStep, hs, descGenStep,
              run_content_writer_agent, hd, stageInv]
      | imageGenerations =>
          cases hda : s.description_approved <;>
            simp [applyEvent, renderStep, hs, imageGenStep, hda, stageInv]
      | review_images =>
          simp only [applyEvent, renderStep, hs]
          split
          · next hcond =>
              simpa [stageInv, all_images_approved] using hcond
          · simp [stageInv, hs]
      | generate_newsletter =>
          have h12 : s.description_approved = true ∧ all_images_approved s = true := by
            simpa [stageInv, hs] using h
          by_cases hh : truthy (pyOr s.fb_image_url s.ig_image_url) = true <;>
            cases hgn : s.user_inputs.gen_news <;>
              cases hr : p.newsResult <;>
                simp_all [applyEvent, renderStep, hs, newsletterGenStep,
                  run_newsletter_composer_agent, stageInv, all_approved,
                  all_images_approved]
      | initial => simp [applyEvent, renderStep, hs, stageInv]
      | review_description => simp [applyEvent, renderStep, hs, stageInv]
      | review_newsletter => simpa [applyEvent, renderStep, hs, stageInv] using h
      | final => simpa [applyEvent, renderStep, hs, stageInv] using h
  | submit u => simp [applyEvent, stageInv]
  | approveDescription =>
      simp only [applyEvent]
      split
      · simp [stageInv]
      · simpa using h
  | regenerateFB =>
      simp only [applyEvent]
      split
      · simp [stageInv]
      · simpa using h
  | regenerateIG =>
      simp only [applyEvent]
      split
      · simp [stageInv]
      · simpa using h
  | approveFB =>
      simp only [applyEvent]
      split
      · next hcond =>
          simp only [fbButtonsVisible, Bool.and_eq_true] at hcond
          cases hs : s.stage <;>
            simp_all [stageInv, all_images_approved, all_approved]
      · simpa using h
  | approveFBWithout =>
      simp only [applyEvent]
      split
      · next hcond =>
          simp only [fbButtonsVisible, Bool.and_eq_true] at hcond
          cases hs : s.stage <;>
            simp_all [stageInv, all_images_approved, all_approved]
      · simpa using h
  | approveIG =>
      simp only [applyEvent]
      split
      · next hcond =>
          simp only [igButtonsVisible, Bool.and_eq_true] at hcond
          cases hs : s.stage <;>
            simp_all [stageInv, all_images_approved, all_approved]
      · simpa using h
  | approveIGWithout =>
      simp only [applyEvent]
      split
      · next hcond =>
          simp only [igButtonsVisible, Bool.and_eq_true] at hcond
          cases hs : s.stage <;>
            simp_all [stageInv, all_images_approved, all_approved]
      · simpa using h
  | approveNewsletter =>
      simp only [applyEvent]
      split
      · next hcond =>
          cases hs : s.stage <;>
            simp_all [stageInv, newsReviewStages, all_approved,
              all_images_approved]
      · simpa using h
  | editDescription txt =>
      simp only [applyEvent]
      split
      · cases hs : s.stage <;>
          simp_all [stageInv, all_approved, all_images_approved]
      · simpa using h
  | editNewsletter txt =>
      simp only [applyEvent]
      split
      · cases hs : s.stage <;>
          simp_all [stageInv, all_approved, all_images_approved]
      · simpa using h

lemma reachable_stageInv {s : SessionState} (hr : Reachable s) :
    stageInv s = true := by
  induction hr with
  | init => rfl
  | step s e p _ ih => exact stageInv_applyEvent s e p ih

lemma reachable_runTrace (s : SessionState) (l : List (Event × Provider))
    (hr : Reachable s) : Reachable (runTrace s l).1 := by
  induction l generalizing s with
  | nil => exact hr
  | cons ep rest ih =>
      obtain ⟨e, p⟩ := ep
      exact ih (applyEvent s e p).1 (.step s e p hr)

/-- C1: In every reachable session state whose stage is `final`, the
full approval gate holds: the description is approved, each requested image
class is approved, and the newsletter, if requested, is approved.  No
sequence of events reaches `final` with this conjunction false, for any of
the 8 request-flag combinations (the flags are arbitrary here). -/
theorem final_requires_all_approvals (s : SessionState)
    (hr : Reachable s) (hs : s.stage = .final) : all_approved s = true := by
  have h := reachable_stageInv hr
  rwa [stageInv, hs] at h

/-- Witness for C1: a concrete run that reaches `final`. -/
theorem final_requires_all_approvals_witness :
    (runTrace init_session_state finalTrace).1.stage = .final ∧
    all_approved (runTrace init_session_state finalTrace).1 = true :=
  ⟨by decide,
   final_requires_all_approvals (runTrace init_session_state finalTrace).1
     (reachable_runTrace init_session_state finalTrace .init) (by decide)⟩

/-- Witness for C5: the Sunrise Yoga scenario with a failing provider. -/
theorem no_content_flags_reaches_final_witness :
    (sunriseYogaInputs.gen_fb = false ∧ sunriseYogaInputs.gen_ig = false ∧
     sunriseYogaInputs.gen_news = false) ∧
    ((runTrace init_session_state
        [(.submit sunriseYogaInputs, failingProvider),
         (.render, failingProvider), (.approveDescription, failingProvider),
         (.render, failingProvider), (.render, failingProvider),
         (.render, failingProvider)]).1.stage = .final ∧
     all_approved (runTrace init_session_state
        [(.submit sunriseYogaInputs, failingProvider),
         (.render, failingProvider), (.approveDescription, failingProvider),
         (.render, failingProvider), (.render, failingProvider),
         (.render, failingProvider)]).1 = true ∧
     (runTrace init_session_state
        [(.submit sunriseYogaInputs, failingProvider),
         (.render, failingProvider), (.approveDescription, failingProvider),
         (.render, failingProvider), (.render, failingProvider),
         (.render, failingProvider)]).2
       = [Call.descCall sunriseYogaInputs.title sunriseYogaInputs.facilitators
           sunriseYogaInputs.short_desc]) :=
  ⟨⟨rfl, rfl, rfl⟩,
   no_content_flags_reaches_final sunriseYogaInputs failingProvider rfl rfl rfl⟩

lemma descClean_applyEvent (s : SessionState) (e : Event) (p : Provider)
    (h : descClean s = true) : descClean (applyEvent s e p).1 = true := by
  cases e with
  | render =>
      cases hs : s.stage with
      | generate_description =>
          cases hd : p.descResult <;>
            simp [applyEvent, renderStep, hs, descGenStep,
              run_content_writer_agent, hd, descClean]
      | imageGenerations =>
          cases hda : s.description_approved <;>
            simp [applyEvent, renderStep, hs, imageGenStep, hda, descClean]
      | review_images =>
          simp only [applyEvent, renderStep, hs]
          split <;> simp [descClean, hs]
      | generate_newsletter =>
          by_cases hh : truthy (pyOr s.fb_image_url s.ig_image_url) = true <;>
            cases hgn : s.user_inputs.gen_news <;>
              cases hr : p.newsResult <;>
                simp_all [applyEvent, renderStep, hs, newsletterGenStep,
                  run_newsletter_composer_agent, descClean]
      | initial => simp [applyEvent, renderStep, hs, descClean]
      | review_description => simp [applyEvent, renderStep, hs, descClean]
      | review_newsletter => simp [applyEvent, renderStep, hs, descClean]
      | final => simp [applyEvent, renderStep, hs, descClean]
  | submit u => simp [applyEvent, descClean]
  | approveDescription =>
      simp only [applyEvent]
      split
      · simp [descClean]
      · simpa using h
  | regenerateFB =>
      simp only [applyEvent]
      split
      · simp [descClean]
      · simpa using h
  | regenerateIG =>
      simp only [applyEvent]
      split
      · simp [descClean]
      · simpa using h
  | approveFB =>
      simp only [applyEvent]
      split
      · next hcond =>
          simpa [descClean] using h
      · simpa using h
  | approveFBWithout =>
      simp only [applyEvent]
      split
      · simpa [descClean] using h
      · simpa using h
  | approveIG =>
      simp only [applyEvent]
      split
      · simpa [descClean] using h
      · simpa using h
  | approveIGWithout =>
      simp only [applyEvent]
      split
      · simpa [descClean] using h
      · simpa using h
  | approveNewsletter =>
      simp only [applyEvent]
      split
      · simp [descClean]
      · simpa using h
  | editDescription txt =>
      simp only [applyEvent]
      split
      · next hcond =>
          cases hs : s.stage <;> simp_all [descClean, descReviewStages]
      · simpa using h
  | editNewsletter txt =>
      simp only [applyEvent]
      split
      · simpa [descClean] using h
      · simpa using h

lemma reachable_descClean {s : SessionState} (hr : Reachable s) :
    descClean s = true := by
  induction hr with
  | init => rfl
  | step s e p _ ih => exact descClean_applyEvent s e p ih

/-- C6: From any reachable state in stage `generate_description`, the
render performs exactly one description call and advances to
`review_description` whether the call succeeds or fails; on failure the
whole state is unchanged except the stage (no error state is entered, the
stage is not unwound) and the description field is still empty. -/
theorem description_step_always_advances (s : SessionState) (p : Provider)
    (hr : Reachable s) (hs : s.stage = .generate_description) :
    (applyEvent s .render p).1.stage = .review_description ∧
    (applyEvent s .render p).2
      = [Call.descCall s.user_inputs.title s.user_inputs.facilitators
          s.user_inputs.short_desc] ∧
    (p.descResult = none →
      (applyEvent s .render p).1 = { s with stage := .review_description } ∧
      (applyEvent s .render p).1.generated_description = "") := by
  have hclean : s.generated_description = "" := by
    have h := reachable_descClean hr
    simpa [descClean, hs] using h
  cases hd : p.descResult <;>
    simp [applyEvent, renderStep, hs, descGenStep, run_content_writer_agent,
      hd, hclean]

/-- Witness for C6: the state right after a submission, with a failing
provider. -/
theorem description_step_always_advances_witness :
    ((runTrace init_session_state
        [(.submit sunriseYogaInputs, failingProvider)]).1.stage
      = .generate_description) ∧
    ((applyEvent (runTrace init_session_state
        [(.submit sunriseYogaInputs, failingProvider)]).1 .render
        failingProvider).1.stage = .review_description ∧
     (applyEvent (runTrace init_session_state
        [(.submit sunriseYogaInputs, failingProvider)]).1 .render
        failingProvider).2
       = [Call.descCall
           (runTrace init_session_state
             [(.submit sunriseYogaInputs, failingProvider)]).1.user_inputs.title
           (runTrace init_session_state
             [(.submit sunriseYogaInputs, failingProvider)]).1.user_inputs.facilitators
           (runTrace init_session_state
             [(.submit sunriseYogaInputs, failingProvider)]).1.user_inputs.short_desc] ∧
     (failingProvider.descResult = none →
       (applyEvent (runTrace init_session_state
          [(.submit sunriseYogaInputs, failingProvider)]).1 .render
          failingProvider).1
         = { (runTrace init_session_state
              [(.submit sunriseYogaInputs, failingProvider)]).1 with
              stage := .review_description } ∧
       (applyEvent (runTrace init_session_state
          [(.submit sunriseYogaInputs, failingProvider)]).1 .render
          failingProvider).1.generated_description = "")) :=
  ⟨by decide,
   description_step_always_advances _ failingProvider
     (reachable_runTrace init_session_state _ .init) (by decide)⟩

/-- C4: The four approval flags start false; under every in-run event
(everything except a form submission, which starts a new run and destroys
the per-run draft and approval state), each flag is monotone — it never
falls back to false — and it rises from false to true only on that
artifact's own approve (or approve-without-image) action.  In particular
nothing other than a regenerate action could ever reset a flag, and in this
code no in-run event resets one at all. -/
theorem approval_flags_lifecycle (s : SessionState) (e : Event) (p : Provider)
    (hne : ∀ u, e ≠ Event.submit u) :
    (init_session_state.description_approved = false ∧
     init_session_state.fb_image_approved = false ∧
     init_session_state.ig_image_approved = false ∧
     init_session_state.newsletter_approved = false) ∧
    ((s.description_approved = true →
        (applyEvent s e p).1.description_approved = true) ∧
     ((applyEvent s e p).1.description_approved = true →
        s.description_approved = true ∨ e = .approveDescription)) ∧
    ((s.fb_image_approved = true →
        (applyEvent s e p).1.fb_image_approved = true) ∧
     ((applyEvent s e p).1.fb_image_approved = true →
        s.fb_image_approved = true ∨ e = .approveFB ∨ e = .approveFBWithout)) ∧
    ((s.ig_image_approved = true →
        (applyEvent s e p).1.ig_image_approved = true) ∧
     ((applyEvent s e p).1.ig_image_approved = true →
        s.ig_image_approved = true ∨ e = .approveIG ∨ e = .approveIGWithout)) ∧
    ((s.newsletter_approved = true →
        (applyEvent s e p).1.newsletter_approved = true) ∧
     ((applyEvent s e p).1.newsletter_approved = true →
        s.newsletter_approved = true ∨ e = .approveNewsletter)) := by
  refine ⟨⟨rfl, rfl, rfl, rfl⟩, ?_⟩
  cases e with
  | submit u => exact absurd rfl (hne u)
  | render =>
      obtain ⟨h1, h2, h3, h4, _⟩ := renderStep_flags s p
      simp [applyEvent, h1, h2, h3, h4]
  | approveDescription => simp only [applyEvent]; split <;> simp
  | regenerateFB => simp only [applyEvent]; split <;> simp
  | regenerateIG => simp only [applyEvent]; split <;> simp
  | approveFB => simp only [applyEvent]; split <;> simp
  | approveFBWithout => simp only [applyEvent]; split <;> simp
  | approveIG => simp only [applyEvent]; split <;> simp
  | approveIGWithout => simp only [applyEvent]; split <;> simp
  | approveNewsletter => simp only [applyEvent]; split <;> simp
  | editDescription txt => simp only [applyEvent]; split <;> simp
  | editNewsletter txt => simp only [applyEvent]; split <;> simp

/-- Witness for C4 at the approve-description event. -/
theorem approval_flags_lifecycle_witness :
    (∀ u, Event.approveDescription ≠ Event.submit u) ∧
    ((init_session_state.description_approved = false ∧
      init_session_state.fb_image_approved = false ∧
      init_session_state.ig_image_approved = false ∧
      init_session_state.newsletter_approved = false) ∧
     ((sampleImageState.description_approved = true →
         (applyEvent sampleImageState .approveDescription
           failingProvider).1.description_approved = true) ∧
      ((applyEvent sampleImageState .approveDescription
           failingProvider).1.description_approved = true →
         sampleImageState.description_approved = true ∨
           Event.approveDescription = .approveDescription)) ∧
     ((sampleImageState.fb_image_approved = true →
         (applyEvent sampleImageState .approveDescription
           failingProvider).1.fb_image_approved = true) ∧
      ((applyEvent sampleImageState .approveDescription
           failingProvider).1.fb_image_approved = true →
         sampleImageState.fb_image_approved = true ∨
           Event.approveDescription = .approveFB ∨
           Event.approveDescription = .approveFBWithout)) ∧
     ((sampleImageState.ig_image_approved = true →
         (applyEvent sampleImageState .approveDescription
           failingProvider).1.ig_image_approved = true) ∧
      ((applyEvent sampleImageState .approveDescription
           failingProvider).1.ig_image_approved = true →
         sampleImageState.ig_image_approved = true ∨
           Event.approveDescription = .approveIG ∨
           Event.approveDescription = .approveIGWithout)) ∧
     ((sampleImageState.newsletter_approved = true →
         (applyEvent sampleImageState .approveDescription
           failingProvider).1.newsletter_approved = true) ∧
      ((applyEvent sampleImageState .approveDescription
           failingProvider).1.newsletter_approved = true →
         sampleImageState.newsletter_approved = true ∨
           Event.approveDescription = .approveNewsletter))) :=
  ⟨fun _u h => Event.noConfusion h,
   approval_flags_lifecycle sampleImageState .approveDescription failingProvider
     (fun _u h => Event.noConfusion h)⟩

/-- Counterexample to C2 as stated: in a reachable `review_images` state
with both image classes requested and neither approved, triggering
"regenerate" for the facebook image also re-requests the instagram image
during the ensuing generation pass, replacing its stored reference. -/
theorem regenerate_fb_also_reruns_unapproved_ig :
    reviewBothState.stage = .review_images ∧
    reviewBothState.user_inputs.gen_fb = true ∧
    reviewBothState.user_inputs.gen_ig = true ∧
    reviewBothState.ig_image_approved = false ∧
    reviewBothState.ig_image_url = some "http://i1" ∧
    (applyEvent (applyEvent reviewBothState .regenerateFB imageProviderB).1
        .render imageProviderB).1.ig_image_url = some "http://i2" ∧
    Call.imageCall reviewBothState.user_inputs.title
        (pySlice reviewBothState.generated_description 500) "1024x1024"
        "Instagram Designer"
      ∈ (applyEvent (applyEvent reviewBothState .regenerateFB imageProviderB).1
          .render imageProviderB).2 := by
  decide

/-- C2 amended: A "regenerate" action clears only its own image class
and returns to the generation stage; the regenerate transition itself
leaves the other class's approved flag and stored reference unchanged.  The
ensuing generation pass re-runs every requested-but-unapproved class, so an
already-approved image is never re-generated: when the other class is
already approved, only the regenerated class is requested and the other's
reference and flag survive untouched. -/
theorem regenerate_only_rerequests_unapproved (s : SessionState)
    (p q : Provider)
    (hstage : s.stage = .review_images)
    (hdesc : s.description_approved = true)
    (hfbreq : s.user_inputs.gen_fb = true)
    (higreq : s.user_inputs.gen_ig = true) :
    (truthy s.fb_image_url = true → s.fb_image_approved = false →
     s.ig_image_approved = true →
      ((applyEvent s .regenerateFB p).1
        = { s with fb_image_url := none, stage := .imageGenerations } ∧
       (applyEvent s .regenerateFB p).2 = [] ∧
       (applyEvent (applyEvent s .regenerateFB p).1 .render q).1.ig_image_url
         = s.ig_image_url ∧
       (applyEvent (applyEvent s .regenerateFB p).1 .render q).1.ig_image_approved
         = true ∧
       (applyEvent (applyEvent s .regenerateFB p).1 .render q).1.fb_image_url
         = q.fbImageResult ∧
       (applyEvent (applyEvent s .regenerateFB p).1 .render q).2
         = [Call.imageCall s.user_inputs.title
             (pySlice s.generated_description 500) "1792x1024"
             "Facebook Designer"])) ∧
    (truthy s.ig_image_url = true → s.ig_image_approved = false →
     s.fb_image_approved = true →
      ((applyEvent s .regenerateIG p).1
        = { s with ig_image_url := none, stage := .imageGenerations } ∧
       (applyEvent s .regenerateIG p).2 = [] ∧
       (applyEvent (applyEvent s .regenerateIG p).1 .render q).1.fb_image_url
         = s.fb_image_url ∧
       (applyEvent (applyEvent s .regenerateIG p).1 .render q).1.fb_image_approved
         = true ∧
       (applyEvent (applyEvent s .regenerateIG p).1 .render q).1.ig_image_url
         = q.igImageResult ∧
       (applyEvent (applyEvent s .regenerateIG p).1 .render q).2
         = [Call.imageCall s.user_inputs.title
             (pySlice s.generated_description 500) "1024x1024"
             "Instagram Designer"])) := by
  constructor
  · intro htr hfa hia
    have hvis : fbButtonsVisible s = true := by
      simp [fbButtonsVisible, imageReviewStages, hstage, hdesc, hfbreq,
        htr, hfa]
    simp [applyEvent, hvis, renderStep, imageGenStep, fbImagePass,
      igImagePass, run_image_designer_agent, hdesc, hfbreq, higreq, hfa, hia]
  · intro htr hia hfa
    have hvis : igButtonsVisible s = true := by
      simp [igButtonsVisible, imageReviewStages, hstage, hdesc, higreq,
        htr, hia]
    simp [applyEvent, hvis, renderStep, imageGenStep, fbImagePass,
      igImagePass, run_image_designer_agent, hdesc, hfbreq, higreq, hfa, hia]

/-- Witness for the amended C2: regenerating facebook with instagram
already approved re-requests only facebook. -/
theorem regenerate_only_rerequests_unapproved_witness :
    (reviewIGApprovedState.stage = .review_images ∧
     reviewIGApprovedState.description_approved = true ∧
     reviewIGApprovedState.user_inputs.gen_fb = true ∧
     reviewIGApprovedState.user_inputs.gen_ig = true ∧
     truthy reviewIGApprovedState.fb_image_url = true ∧
     reviewIGApprovedState.fb_image_approved = false ∧
     reviewIGApprovedState.ig_image_approved = true) ∧
    ((applyEvent reviewIGApprovedState .regenerateFB imageProviderB).1
       = { reviewIGApprovedState with
            fb_image_url := none, stage := .imageGenerations } ∧
     (applyEvent reviewIGApprovedState .regenerateFB imageProviderB).2 = [] ∧
     (applyEvent (applyEvent reviewIGApprovedState .regenerateFB
         imageProviderB).1 .render imageProviderB).1.ig_image_url
       = reviewIGApprovedState.ig_image_url ∧
     (applyEvent (applyEvent reviewIGApprovedState .regenerateFB
         imageProviderB).1 .render imageProviderB).1.ig_image_approved = true ∧
     (applyEvent (applyEvent reviewIGApprovedState .regenerateFB
         imageProviderB).1 .render imageProviderB).1.fb_image_url
       = imageProviderB.fbImageResult ∧
     (applyEvent (applyEvent reviewIGApprovedState .regenerateFB
         imageProviderB).1 .render imageProviderB).2
       = [Call.imageCall reviewIGApprovedState.user_inputs.title
           (pySlice reviewIGApprovedState.generated_description 500)
           "1792x1024" "Facebook Designer"]) :=
  ⟨by decide,
   (regenerate_only_rerequests_unapproved reviewIGApprovedState
       imageProviderB imageProviderB (by decide) (by decide) (by decide)
       (by decide)).1 (by decide) (by decide) (by decide)⟩

end App
